import Mathlib

/-!
Verification of the Messenger publish/subscribe bus.

Shallow embedding of `src/Messenger.h` / `src/Messenger.cpp`:

* `MessageToken` wraps a `QString` (modelled as `String`); empty is wildcard.
* Receivers are `QObject*` pointers, modelled as `Nat` with `0` for `nullptr`.
  A `QPointer<QObject>` stores the target pointer; whether the target is still
  alive is an environment `alive : Nat → Bool` supplied to each operation
  (`QPointer::data()` returns `nullptr` once the object is destroyed,
  `QPointer::isNull()` tests that).
* Callbacks are opaque identifiers (`Nat`); the dispatch list produced by
  `internalSend` records, in order, which subscriptions get invoked.
* The registry is the `QList<Subscription> subscriptions` field, modelled as
  `List Subscription` in insertion order.
-/

/-- Model of `MessageToken` (Messenger.h:25-33): wraps a `QString` id;
equality is string equality. -/
structure MessageToken where
  id : String
deriving DecidableEq, Repr

/-- Model of `MessageToken::isEmpty` (Messenger.h:31). -/
def MessageToken.isEmpty (t : MessageToken) : Bool := t.id == ""

instance : BEq MessageToken := ⟨fun a b => a.id == b.id⟩

theorem MessageToken.beq_iff (a b : MessageToken) : (a == b) = true ↔ a = b := by
  cases a; cases b
  simp [BEq.beq]

instance : LawfulBEq MessageToken where
  eq_of_beq h := (MessageToken.beq_iff _ _).1 h
  rfl := (MessageToken.beq_iff _ _).2 rfl

/-- Model of `QPointer<QObject>::data()` for a stored target pointer `p` under liveness
environment `alive`: returns the pointer while the object is alive, `nullptr`
(0) otherwise (and a `QPointer` constructed from `nullptr` stays null). -/
def ptrData (alive : Nat → Bool) (p : Nat) : Nat :=
  if p ≠ 0 ∧ alive p = true then p else 0

/-- Model of `QPointer<QObject>::isNull()`: true iff `data()` is `nullptr`. -/
def ptrIsNull (alive : Nat → Bool) (p : Nat) : Bool := ptrData alive p == 0

/-- Model of `Messenger::Subscription` (Messenger.h:96-101): immutable tuple of type
key, token, receiver handle (the pointer stored in the `QPointer`) and a
callback identifier. -/
structure Subscription where
  type : Nat
  token : MessageToken
  receiver : Nat
  cb : Nat
deriving DecidableEq, Repr

instance : Inhabited Subscription := ⟨⟨0, ⟨""⟩, 0, 0⟩⟩

namespace Messenger

/-- Model of `Messenger::Unregister(QObject*)` (Messenger.cpp:8-17): null-guarded; erases
every entry whose `receiver.data()` equals the given pointer, keeping the rest
in order. -/
def Unregister (alive : Nat → Bool) (receiver : Nat) (subs : List Subscription) :
    List Subscription :=
  if receiver = 0 then subs
  else subs.filter (fun s => !(ptrData alive s.receiver == receiver))

/-- Model of `Messenger::Cleanup` (Messenger.cpp:19-27): erases every entry whose
`QPointer` is null. -/
def Cleanup (alive : Nat → Bool) (subs : List Subscription) : List Subscription :=
  subs.filter (fun s => !(ptrIsNull alive s.receiver))

/-- Model of `Messenger::internalRegister` (Messenger.cpp:29-31): unconditionally appends
a new entry. -/
def internalRegister (type : Nat) (token : MessageToken) (receiver : Nat) (cb : Nat)
    (subs : List Subscription) : List Subscription :=
  subs ++ [⟨type, token, receiver, cb⟩]

/-- Token match rule of `Messenger::internalSend` (Messenger.cpp:36):
`sub.token.isEmpty() || token.isEmpty() || sub.token == token`. -/
def tokenMatch (subTok sendTok : MessageToken) : Bool :=
  subTok.isEmpty || sendTok.isEmpty || subTok == sendTok

/-- Model of `Messenger::internalSend` (Messenger.cpp:33-44): walks the registry in
order and invokes the callback of every entry whose type key equals the sent
type, whose token matches and whose receiver pointer is not null. The result
is the ordered list of entries that get invoked; the registry itself is not
modified by the loop. -/
def internalSend (alive : Nat → Bool) (type : Nat) (token : MessageToken)
    (subs : List Subscription) : List Subscription :=
  subs.filter (fun s =>
    s.type == type && tokenMatch s.token token && !(ptrIsNull alive s.receiver))

/-- Templated `Messenger::Unregister<TMsg>(QObject*, MessageToken)`
(Messenger.h:77-88): erases every entry with `receiver.data() == receiver`,
matching type, and whose token is hit by `token.isEmpty() || it->token == token`. -/
def UnregisterTyped (alive : Nat → Bool) (receiver : Nat) (type : Nat)
    (token : MessageToken) (subs : List Subscription) : List Subscription :=
  subs.filter (fun s =>
    !(ptrData alive s.receiver == receiver && s.type == type &&
      (token.isEmpty || s.token == token)))

/-- Payloads observed by the object at pointer `r` when the sends in `sends`
(each a type key, token and payload) are executed one after another against a
fixed registry: each send appends its payload once per invoked entry whose
receiver is `r`. -/
def observedBy (alive : Nat → Bool) (subs : List Subscription) (r : Nat) :
    List (Nat × MessageToken × Nat) → List Nat
  | [] => []
  | snd :: rest =>
    (internalSend alive snd.1 snd.2.1 subs).filterMap
        (fun e => if ptrData alive e.receiver == r then some snd.2.2 else none) ++
      observedBy alive subs r rest

end Messenger

namespace Messenger.Reentrant

/-!
Re-entrant model of `internalSend` (Messenger.cpp:33-44) for the same-thread
case: with `Qt::AutoConnection` and the receiver living on the sending thread,
`QMetaObject::invokeMethod` runs the callback inline, while the `for` loop is
still iterating `subscriptions`. The range-for caches `begin()` and `end()`
once; a callback that calls `Unregister` erases from the very list being
iterated. Qt 5's `QList::erase` calls `QListData::remove(i)`, which moves
whichever side of the erased slot is smaller: when the prefix `[begin, i)` is
strictly smaller than the suffix `[i, end)` it memmoves the prefix right by
one slot and increments `begin` (this is why `removeFirst` is constant time),
otherwise it memmoves the suffix `[i+1, end)` left by one slot and decrements
`end`; the vacated boundary slot keeps its old node pointer and no
reallocation happens on erase. The model tracks the physical slot array
(constant length) together with the live window `[bIdx, eIdx)`, exactly as
the cached iterators see it.
-/

/-- Model of the physical effect of Qt 5 `QList::erase` at absolute slot `i`
of the live window `[b, e)` (`QListData::remove`): if the prefix `[b, i)` is
strictly smaller than the suffix `[i, e)`, the prefix moves right one slot
and `b` is incremented (slot `b` keeps its old contents); otherwise the
suffix `[i+1, e)` moves left one slot and `e` is decremented (slot `e-1`
keeps its old contents). Returns the new array, window start and window
stop. -/
def erasePhys (arr : List Subscription) (b e i : Nat) :
    List Subscription × Nat × Nat :=
  if i - b < e - i then
    (arr.take (b + 1) ++ (arr.drop b).take (i - b) ++ arr.drop (i + 1), b + 1, e)
  else
    (arr.take i ++ (arr.drop (i + 1)).take (e - i - 1) ++ arr.drop (e - 1), b, e - 1)

/-- The erase loop of `Messenger::Unregister(QObject*)` (Messenger.cpp:10-16)
run re-entrantly against the physical array: scans the live window from `j`,
erasing entries whose `receiver.data()` equals `r` and resuming at the slot
that `QList::erase` returns (`begin() + id` with `id` the erased element's
offset from the old `begin`, i.e. the erased element's successor), advancing
otherwise. `fuel` bounds the iteration; `e` steps always suffice. -/
def unregLoop (alive : Nat → Bool) (r : Nat) :
    Nat → List Subscription → Nat → Nat → Nat → List Subscription × Nat × Nat
  | 0, arr, b, e, _ => (arr, b, e)
  | fuel + 1, arr, b, e, j =>
    if j < e then
      if ptrData alive (arr.getD j default).receiver == r then
        let res := erasePhys arr b e j
        unregLoop alive r fuel res.1 res.2.1 res.2.2 (res.2.1 + (j - b))
      else
        unregLoop alive r fuel arr b e (j + 1)
    else (arr, b, e)

/-- Model of `Messenger::Unregister(QObject*)` (Messenger.cpp:8-17) acting on
the physical array: null-guarded, then the erase loop over the live window. -/
def UnregisterPhys (alive : Nat → Bool) (r : Nat) (arr : List Subscription)
    (b e : Nat) : List Subscription × Nat × Nat :=
  if r = 0 then (arr, b, e) else unregLoop alive r e arr b e b

/-- State threaded through one `internalSend` loop: the physical slot array,
the live window `[bIdx, eIdx)`, and each receiver's log of payloads received
so far. -/
structure SendState where
  arr : List Subscription
  bIdx : Nat
  eIdx : Nat
  logs : Nat → List Nat

/-- Deliver payload `pl` to the receiver object at pointer `r`: receivers
listed in `selfU` run the self-unregistering callback of
`tst_Messenger.cpp:304-316` (if their log is still empty they call
`Unregister` on themselves first), then the payload is recorded. -/
def runCallback (alive : Nat → Bool) (selfU : List Nat) (pl : Nat) (r : Nat)
    (st : SendState) : SendState :=
  let st1 : SendState :=
    if r ∈ selfU ∧ st.logs r = [] then
      let res := UnregisterPhys alive r st.arr st.bIdx st.eIdx
      { st with arr := res.1, bIdx := res.2.1, eIdx := res.2.2 }
    else st
  { st1 with logs := fun x => if x = r then st1.logs x ++ [pl] else st1.logs x }

/-- The `for` loop of `internalSend` with its cached end `ce`: at slot `i` the
current physical entry is read, the type/token/liveness checks of
Messenger.cpp:35-38 are applied, and on success the callback runs inline
(same-thread `Qt::AutoConnection`), possibly mutating the array under the
loop. -/
def sendLoop (alive : Nat → Bool) (selfU : List Nat) (ty : Nat)
    (tok : MessageToken) (pl : Nat) : Nat → SendState → Nat → Nat → SendState
  | 0, st, _, _ => st
  | fuel + 1, st, i, ce =>
    if i < ce then
      let s := st.arr.getD i default
      let st1 :=
        if s.type == ty && Messenger.tokenMatch s.token tok &&
            !(ptrIsNull alive s.receiver) then
          runCallback alive selfU pl (ptrData alive s.receiver) st
        else st
      sendLoop alive selfU ty tok pl fuel st1 (i + 1) ce
    else st

/-- One same-thread `internalSend` with payload `pl`: the loop runs from the
cached `begin()` to the cached `end()` of the state at entry, over the same
physical array the callbacks mutate. -/
def SendInline (alive : Nat → Bool) (selfU : List Nat) (ty : Nat)
    (tok : MessageToken) (pl : Nat) (st : SendState) : SendState :=
  sendLoop alive selfU ty tok pl (st.eIdx - st.bIdx) st st.bIdx st.eIdx

/-- Registry state freshly built by `Register` calls: the physical array is
the subscription list, the live window is the whole array, all logs are
empty. -/
def initState (subs : List Subscription) : SendState :=
  ⟨subs, 0, subs.length, fun _ => []⟩

/-- Live registry held by a state: the live window of the physical array. -/
def SendState.live (st : SendState) : List Subscription :=
  (st.arr.drop st.bIdx).take (st.eIdx - st.bIdx)

end Messenger.Reentrant

/-!
Claim theorems. Each claim of the specification is settled against the
definitions above.
-/

/-- Subscription entry whose receiver (pointer 5) matches type 1 with a
wildcard token; used to study sends while that receiver is destroyed. -/
def deadEntry : Subscription := ⟨1, ⟨""⟩, 5, 0⟩

/-- C1, counterexample: taken literally, "delivered iff the type keys are
equal and the tokens match" is false: an entry whose receiver has been
destroyed (liveness environment constantly false) matches the sent type `1`
and the wildcard token, yet `internalSend` does not invoke it — the code also
requires the receiver pointer to be non-null (Messenger.cpp:38). -/
theorem C1_counterexample :
    ¬ (∀ s ∈ [deadEntry],
        s ∈ Messenger.internalSend (fun _ => false) 1 ⟨""⟩ [deadEntry] ↔
          s.type = 1 ∧ Messenger.tokenMatch s.token ⟨""⟩ = true) := by
  decide

/-- C1, amended: an entry is invoked by `internalSend` iff it is in the
registry, its type key equals the sent type exactly, the tokens match per the
either-side-wildcard rule, and its receiver pointer is non-null at send time;
in particular an entry with specific token never receives a send with a
different specific token. -/
theorem C1_delivered_iff_match_and_nonnull (alive : Nat → Bool) (ty : Nat)
    (tok : MessageToken) (subs : List Subscription) :
    (∀ s, s ∈ Messenger.internalSend alive ty tok subs ↔
      s ∈ subs ∧ s.type = ty ∧ Messenger.tokenMatch s.token tok = true ∧
        ptrIsNull alive s.receiver = false) ∧
    (∀ s ∈ subs, s.token.isEmpty = false → tok.isEmpty = false → s.token ≠ tok →
      s ∉ Messenger.internalSend alive ty tok subs) := by
  have hmain : ∀ s, s ∈ Messenger.internalSend alive ty tok subs ↔
      s ∈ subs ∧ s.type = ty ∧ Messenger.tokenMatch s.token tok = true ∧
        ptrIsNull alive s.receiver = false := by
    intro s
    simp only [Messenger.internalSend, List.mem_filter, Bool.and_eq_true,
      beq_iff_eq, Bool.not_eq_true']
    tauto
  refine ⟨hmain, ?_⟩
  intro s hs hse htse hne hmem
  rcases (hmain s).1 hmem with ⟨-, -, hmatch, -⟩
  unfold Messenger.tokenMatch at hmatch
  rw [hse, htse] at hmatch
  simp only [Bool.false_or] at hmatch
  exact hne (eq_of_beq hmatch)

/-- C1, witness for the amended theorem: a subscription with token `x` does
not receive a send with token `y`. -/
theorem C1_delivered_iff_match_and_nonnull_witness :
    (⟨1, ⟨"x"⟩, 5, 0⟩ : Subscription) ∈ [(⟨1, ⟨"x"⟩, 5, 0⟩ : Subscription)] ∧
    (⟨1, ⟨"x"⟩, 5, 0⟩ : Subscription) ∉
      Messenger.internalSend (fun _ => true) 1 ⟨"y"⟩ [⟨1, ⟨"x"⟩, 5, 0⟩] :=
  ⟨by decide,
    (C1_delivered_iff_match_and_nonnull (fun _ => true) 1 ⟨"y"⟩
        [⟨1, ⟨"x"⟩, 5, 0⟩]).2
      ⟨1, ⟨"x"⟩, 5, 0⟩ (by decide) (by decide) (by decide) (by decide)⟩

/-- C2, counterexample: `internalRegister` has no null check
(Messenger.cpp:29-31); registering with a null receiver is neither a no-op nor
a rejection — it appends an entry whose receiver pointer is null. -/
theorem C2_counterexample :
    ¬ (Messenger.internalRegister 1 ⟨""⟩ 0 0 [] = [] ∨
       ∀ s ∈ Messenger.internalRegister 1 ⟨""⟩ 0 0 [], s.receiver ≠ 0) := by
  decide

/-- C2, amended: register accepts a null receiver like every other input and
appends an entry with a null receiver handle; the registry is not corrupted
and there is no crash: the appended entry is never invoked by any send (the
null-receiver check of Messenger.cpp:38 skips it) and `Cleanup` removes it. -/
theorem C2_null_register_inert (alive : Nat → Bool) (ty : Nat)
    (tok : MessageToken) (cb : Nat) (subs : List Subscription) :
    Messenger.internalRegister ty tok 0 cb subs = subs ++ [⟨ty, tok, 0, cb⟩] ∧
    (∀ ty2 tok2, (⟨ty, tok, 0, cb⟩ : Subscription) ∉
      Messenger.internalSend alive ty2 tok2
        (Messenger.internalRegister ty tok 0 cb subs)) ∧
    Messenger.Cleanup alive (Messenger.internalRegister ty tok 0 cb subs) =
      Messenger.Cleanup alive subs := by
  refine ⟨rfl, ?_, ?_⟩
  · intro ty2 tok2 hmem
    have hp := (List.mem_filter.1 hmem).2
    simp [ptrIsNull, ptrData] at hp
  · unfold Messenger.Cleanup Messenger.internalRegister
    rw [List.filter_append]
    simp [ptrIsNull, ptrData]

/-- C10: untyped `Unregister(nullptr)` is a guarded no-op (Messenger.cpp:9),
while typed `Unregister<T>(nullptr)` with a wildcard token removes exactly the
type-`T` entries whose receiver handle is null (dead or registered null),
because `QPointer::data()` of a dead handle compares equal to `nullptr`; live
entries are never removed. -/
theorem C10_null_receiver_unregister (alive : Nat → Bool) (ty : Nat)
    (subs : List Subscription) :
    Messenger.Unregister alive 0 subs = subs ∧
    (∀ s, s ∈ Messenger.UnregisterTyped alive 0 ty ⟨""⟩ subs ↔
      s ∈ subs ∧ ¬(s.type = ty ∧ ptrIsNull alive s.receiver = true)) := by
  constructor
  · simp [Messenger.Unregister]
  · intro s
    have hw : MessageToken.isEmpty (⟨""⟩ : MessageToken) = true := by decide
    simp only [Messenger.UnregisterTyped, List.mem_filter]
    constructor
    · rintro ⟨hs, hp⟩
      refine ⟨hs, ?_⟩
      rintro ⟨hty, hnull⟩
      rw [ptrIsNull] at hnull
      simp [hnull, hty, hw] at hp
    · rintro ⟨hs, hn⟩
      refine ⟨hs, ?_⟩
      rw [Bool.not_eq_true']
      rcases Bool.eq_false_or_eq_true (ptrData alive s.receiver == 0) with hA | hA
      · have hty : s.type ≠ ty := fun h => hn ⟨h, by rw [ptrIsNull]; exact hA⟩
        simp [hA, hty]
      · simp [hA]

/-- Removal rule of spec section 4.2 for typed unregister, written as the spec
words it: an explicitly wildcard `given` token removes every stored token, a
specific `given` token removes exactly the stored tokens equal to it. -/
def specUnregisterHits (given stored : MessageToken) : Bool :=
  if given.isEmpty then true else stored == given

/-- C4: typed unregister removes, among the entries whose receiver handle
resolves to the given pointer and whose type matches, exactly those hit by the
spec rule `specUnregisterHits` — all tokens under a wildcard argument, only the
exactly equal stored token otherwise; in particular, under a specific token it
keeps every wildcard-token entry (stricter than the delivery rule), and every
entry of another receiver or type is untouched. -/
theorem C4_typed_unregister_rule (alive : Nat → Bool) (r ty : Nat)
    (tok : MessageToken) (subs : List Subscription) :
    Messenger.UnregisterTyped alive r ty tok subs =
      subs.filter (fun s => !(ptrData alive s.receiver == r && s.type == ty &&
        specUnregisterHits tok s.token)) ∧
    (∀ s, s ∈ Messenger.UnregisterTyped alive r ty tok subs ↔
      s ∈ subs ∧ ¬(ptrData alive s.receiver = r ∧ s.type = ty ∧
        (tok.isEmpty = true ∨ s.token = tok))) ∧
    (tok.isEmpty = false → ∀ s ∈ subs, s.token.isEmpty = true →
      s ∈ Messenger.UnregisterTyped alive r ty tok subs) := by
  have hiff : ∀ s, s ∈ Messenger.UnregisterTyped alive r ty tok subs ↔
      s ∈ subs ∧ ¬(ptrData alive s.receiver = r ∧ s.type = ty ∧
        (tok.isEmpty = true ∨ s.token = tok)) := by
    intro s
    simp only [Messenger.UnregisterTyped, List.mem_filter, Bool.not_eq_true',
      Bool.and_eq_false_iff, Bool.or_eq_false_iff, beq_eq_false_iff_ne, ne_eq]
    constructor
    · rintro ⟨hs, hp⟩
      refine ⟨hs, ?_⟩
      rintro ⟨hr, hty, htok⟩
      rcases hp with (h | h) | h
      · exact h hr
      · exact h hty
      · rcases htok with h1 | h1
        · exact absurd h1 (by simpa using h.1)
        · exact h.2 h1
    · rintro ⟨hs, hn⟩
      refine ⟨hs, ?_⟩
      by_cases hr : ptrData alive s.receiver = r
      · by_cases hty : s.type = ty
        · right
          constructor
          · rw [Bool.eq_false_iff]
            intro he
            exact hn ⟨hr, hty, Or.inl he⟩
          · intro he
            exact hn ⟨hr, hty, Or.inr he⟩
        · exact Or.inl (Or.inr hty)
      · exact Or.inl (Or.inl hr)
  refine ⟨?_, hiff, ?_⟩
  · apply List.filter_congr
    intro s _
    unfold specUnregisterHits
    cases h : tok.isEmpty <;> simp [Messenger.tokenMatch, h]
  · intro htok s hs hse
    rw [hiff s]
    refine ⟨hs, ?_⟩
    rintro ⟨-, -, h1 | h1⟩
    · rw [htok] at h1
      cases h1
    · rw [h1] at hse
      rw [hse] at htok
      cases htok

/-- C4, witness: with the specific token `a`, a wildcard-token entry of the
very receiver and type being unregistered is kept. -/
theorem C4_typed_unregister_rule_witness :
    MessageToken.isEmpty ⟨"a"⟩ = false ∧
    (⟨1, ⟨""⟩, 5, 0⟩ : Subscription) ∈
      Messenger.UnregisterTyped (fun _ => true) 5 1 ⟨"a"⟩ [⟨1, ⟨""⟩, 5, 0⟩] :=
  ⟨by decide,
    (C4_typed_unregister_rule (fun _ => true) 5 1 ⟨"a"⟩ [⟨1, ⟨""⟩, 5, 0⟩]).2.2
      (by decide) ⟨1, ⟨""⟩, 5, 0⟩ (by decide) (by decide)⟩

/-- C5: register always succeeds and appends without deduplication —
registering the same (receiver, type, callback, token) twice yields two
independent entries, and a matching send then invokes exactly two entries. -/
theorem C5_duplicate_register (alive : Nat → Bool) (ty : Nat)
    (tok : MessageToken) (r cb : Nat) (subs : List Subscription)
    (hr : r ≠ 0) (ha : alive r = true) :
    Messenger.internalRegister ty tok r cb subs = subs ++ [⟨ty, tok, r, cb⟩] ∧
    Messenger.internalRegister ty tok r cb
        (Messenger.internalRegister ty tok r cb []) =
      [⟨ty, tok, r, cb⟩, ⟨ty, tok, r, cb⟩] ∧
    (Messenger.internalSend alive ty tok
        (Messenger.internalRegister ty tok r cb
          (Messenger.internalRegister ty tok r cb []))).length = 2 := by
  refine ⟨rfl, rfl, ?_⟩
  simp [Messenger.internalSend, Messenger.internalRegister, Messenger.tokenMatch,
    ptrIsNull, ptrData, hr, ha]

/-- C5, witness at receiver 5, type 1, token `a`. -/
theorem C5_duplicate_register_witness :
    (5 : Nat) ≠ 0 ∧
    (Messenger.internalSend (fun _ => true) 1 ⟨"a"⟩
        (Messenger.internalRegister 1 ⟨"a"⟩ 5 0
          (Messenger.internalRegister 1 ⟨"a"⟩ 5 0 []))).length = 2 :=
  ⟨by decide,
    (C5_duplicate_register (fun _ => true) 1 ⟨"a"⟩ 5 0 [] (by decide) rfl).2.2⟩

/-- C6: `Cleanup` keeps exactly the entries whose receiver handle is non-null
at the time of the call (removing every dead one), is a no-op when no entry is
dead, and after it runs no send invokes any entry of a destroyed receiver. -/
theorem C6_cleanup_prunes_dead (alive : Nat → Bool) (subs : List Subscription) :
    (∀ s, s ∈ Messenger.Cleanup alive subs ↔
      s ∈ subs ∧ ptrIsNull alive s.receiver = false) ∧
    ((∀ s ∈ subs, ptrIsNull alive s.receiver = false) →
      Messenger.Cleanup alive subs = subs) ∧
    (∀ r ty tok, alive r = false →
      ∀ s ∈ Messenger.internalSend alive ty tok (Messenger.Cleanup alive subs),
        s.receiver ≠ r) := by
  refine ⟨?_, ?_, ?_⟩
  · intro s
    simp [Messenger.Cleanup, List.mem_filter]
  · intro h
    apply List.filter_eq_self.2
    intro s hs
    rw [Bool.not_eq_true']
    exact h s hs
  · intro r ty tok hdead s hmem heq
    have hp := (List.mem_filter.1 hmem).2
    simp only [Bool.and_eq_true, Bool.not_eq_true'] at hp
    rw [ptrIsNull, heq, ptrData] at hp
    rcases hp with ⟨-, hnull⟩
    by_cases hr : r = 0
    · simp [hr] at hnull
    · simp [hr, hdead] at hnull

/-- C6, witness: with only pointer 5 alive, a registry whose entries are all
live is unchanged by `Cleanup`, and a send after `Cleanup` invokes no entry of
the destroyed receiver 6. -/
theorem C6_cleanup_prunes_dead_witness :
    Messenger.Cleanup (fun p => decide (p = 5)) [⟨1, ⟨""⟩, 5, 0⟩] =
      [⟨1, ⟨""⟩, 5, 0⟩] ∧
    ∀ s ∈ Messenger.internalSend (fun p => decide (p = 5)) 1 ⟨""⟩
        (Messenger.Cleanup (fun p => decide (p = 5)) [⟨1, ⟨""⟩, 5, 0⟩]),
      s.receiver ≠ 6 :=
  ⟨(C6_cleanup_prunes_dead (fun p => decide (p = 5)) [⟨1, ⟨""⟩, 5, 0⟩]).2.1
      (by decide),
    fun s hs =>
      (C6_cleanup_prunes_dead (fun p => decide (p = 5)) [⟨1, ⟨""⟩, 5, 0⟩]).2.2
        6 1 ⟨""⟩ (by decide) s hs⟩

/-- C7: `Unregister` by receiver is idempotent — running it twice equals
running it once — and entries whose receiver handle does not resolve to the
given pointer are untouched. -/
theorem C7_unregister_idempotent (alive : Nat → Bool) (r : Nat)
    (subs : List Subscription) :
    Messenger.Unregister alive r (Messenger.Unregister alive r subs) =
      Messenger.Unregister alive r subs ∧
    (∀ s, ptrData alive s.receiver ≠ r →
      (s ∈ Messenger.Unregister alive r subs ↔ s ∈ subs)) := by
  constructor
  · unfold Messenger.Unregister
    by_cases hr : r = 0
    · simp [hr]
    · simp only [hr, if_false]
      rw [List.filter_filter]
      apply List.filter_congr
      intro s _
      rw [Bool.and_self]
  · intro s hne
    unfold Messenger.Unregister
    by_cases hr : r = 0
    · simp [hr]
    · simp only [hr, if_false, List.mem_filter]
      constructor
      · exact fun h => h.1
      · intro hs
        refine ⟨hs, ?_⟩
        simp [hne]

/-- C7, witness: unregistering pointer 5 leaves the entry of pointer 6 in
place. -/
theorem C7_unregister_idempotent_witness :
    ptrData (fun _ => true) 6 ≠ 5 ∧
    ((⟨1, ⟨""⟩, 6, 0⟩ : Subscription) ∈
        Messenger.Unregister (fun _ => true) 5 [⟨1, ⟨""⟩, 6, 0⟩] ↔
      (⟨1, ⟨""⟩, 6, 0⟩ : Subscription) ∈ [(⟨1, ⟨""⟩, 6, 0⟩ : Subscription)]) :=
  ⟨by decide,
    (C7_unregister_idempotent (fun _ => true) 5 [⟨1, ⟨""⟩, 6, 0⟩]).2
      ⟨1, ⟨""⟩, 6, 0⟩ (by decide)⟩

/-- C8: every registry operation preserves the relative order of the entries
that survive it — the removal operations produce sublists of the registry (so
entries of the same type are never reordered), register appends at the end,
and send leaves the registry untouched; consequently a receiver with a single
subscription observes a sequence of matching same-type sends in send order. -/
theorem C8_order_preserved (alive : Nat → Bool) (r ty : Nat)
    (tok : MessageToken) (subs : List Subscription) (rcv cb : Nat)
    (sends : List (Nat × MessageToken × Nat))
    (hrcv : rcv ≠ 0) (halive : alive rcv = true)
    (hsends : ∀ x ∈ sends, x.1 = ty ∧ Messenger.tokenMatch tok x.2.1 = true) :
    List.Sublist (Messenger.Unregister alive r subs) subs ∧
    List.Sublist (Messenger.Cleanup alive subs) subs ∧
    List.Sublist (Messenger.UnregisterTyped alive r ty tok subs) subs ∧
    Messenger.internalRegister ty tok rcv cb subs = subs ++ [⟨ty, tok, rcv, cb⟩] ∧
    Messenger.observedBy alive [⟨ty, tok, rcv, cb⟩] rcv sends =
      sends.map (fun x => x.2.2) := by
  refine ⟨?_, List.filter_sublist _, List.filter_sublist _, rfl, ?_⟩
  · unfold Messenger.Unregister
    by_cases hr : r = 0
    · simp [hr]
    · simp only [hr, if_false]
      exact List.filter_sublist _
  · have hdata : (ptrData alive rcv == rcv) = true := by
      simp [ptrData, hrcv, halive]
    revert hsends
    induction sends with
    | nil => intro _; rfl
    | cons x xs ih =>
      intro hsends
      rcases hsends x (List.mem_cons_self _ _) with ⟨hx1, hx2⟩
      have hhead :
          Messenger.internalSend alive x.1 x.2.1 [⟨ty, tok, rcv, cb⟩] =
            [⟨ty, tok, rcv, cb⟩] := by
        simp [Messenger.internalSend, hx1, hx2, ptrIsNull, ptrData, hrcv, halive]
      rw [Messenger.observedBy, hhead, List.map_cons,
        ih (fun y hy => hsends y (List.mem_cons_of_mem _ hy))]
      simp [List.filterMap, hdata]

/-- C8, witness: receiver 5 with one subscription observes payloads 10 then 11
in send order. -/
theorem C8_order_preserved_witness :
    (5 : Nat) ≠ 0 ∧
    Messenger.observedBy (fun _ => true) [⟨1, ⟨""⟩, 5, 0⟩] 5
        [(1, ⟨""⟩, 10), (1, ⟨""⟩, 11)] = [10, 11] :=
  ⟨by decide,
    (C8_order_preserved (fun _ => true) 5 1 ⟨""⟩ [] 5 0
        [(1, ⟨""⟩, 10), (1, ⟨""⟩, 11)] (by decide) rfl (by decide)).2.2.2.2⟩

/-- Six same-type wildcard-token subscriptions: receivers 10, 11 and 12,
then receiver 5 (whose callback unregisters itself on its first message,
sitting in the back half of the list so that its re-entrant erase takes the
suffix-shift branch of `QListData::remove`), then receivers 14 and 15. -/
def selfUnregSubs : List Subscription :=
  [⟨1, ⟨""⟩, 10, 0⟩, ⟨1, ⟨""⟩, 11, 1⟩, ⟨1, ⟨""⟩, 12, 2⟩,
   ⟨1, ⟨""⟩, 5, 3⟩, ⟨1, ⟨""⟩, 14, 4⟩, ⟨1, ⟨""⟩, 15, 5⟩]

/-- Liveness environment in which every non-null pointer is alive. -/
def allPtrsAlive : Nat → Bool := fun p => decide (p ≠ 0)

/-- First same-thread send (payload 10) against the fresh registry
`selfUnregSubs`, with receiver 5 running the self-unregistering callback. -/
def selfUnregSend1 : Messenger.Reentrant.SendState :=
  Messenger.Reentrant.SendInline allPtrsAlive [5] 1 ⟨""⟩ 10
    (Messenger.Reentrant.initState selfUnregSubs)

/-- Second same-thread send (payload 11) against the physical state left by
the first send. -/
def selfUnregSend2 : Messenger.Reentrant.SendState :=
  Messenger.Reentrant.SendInline allPtrsAlive [5] 1 ⟨""⟩ 11 selfUnregSend1

/-- C3: evaluation of the dispatch loop at the failing input. The
self-unregistering receiver 5 does receive exactly one message over both
sends, but the iteration is not decoupled from the live structure: receiver
5's entry sits at index 3 of the window `[0, 6)`, so its re-entrant erase
takes the suffix-shift branch of `QListData::remove`, moving the entries of
receivers 14 and 15 left by one under the cached-end loop. In the first send
receiver 14 — a matching, live subscription of that send (last conjunct) —
receives nothing while receiver 15 receives the same message twice. -/
theorem C3_reentrant_iteration_not_decoupled :
    selfUnregSend1.logs 5 = [10] ∧
    selfUnregSend1.logs 14 = [] ∧
    selfUnregSend1.logs 15 = [10, 10] ∧
    selfUnregSend1.live =
      [⟨1, ⟨""⟩, 10, 0⟩, ⟨1, ⟨""⟩, 11, 1⟩, ⟨1, ⟨""⟩, 12, 2⟩,
       ⟨1, ⟨""⟩, 14, 4⟩, ⟨1, ⟨""⟩, 15, 5⟩] ∧
    selfUnregSend2.logs 5 = [10] ∧
    selfUnregSend2.logs 14 = [11] ∧
    selfUnregSend2.logs 15 = [10, 10, 11] ∧
    (⟨1, ⟨""⟩, 14, 4⟩ : Subscription) ∈
      Messenger.internalSend allPtrsAlive 1 ⟨""⟩ selfUnregSubs := by
  decide

/-- C2, witness for the amended theorem: registering the null receiver on the
empty registry appends the null-handle entry, and a matching send does not
invoke it. -/
theorem C2_null_register_inert_witness :
    Messenger.internalRegister 1 ⟨""⟩ 0 0 [] = [] ++ [⟨1, ⟨""⟩, 0, 0⟩] ∧
    (⟨1, ⟨""⟩, 0, 0⟩ : Subscription) ∉
      Messenger.internalSend (fun _ => true) 1 ⟨""⟩
        (Messenger.internalRegister 1 ⟨""⟩ 0 0 []) :=
  ⟨(C2_null_register_inert (fun _ => true) 1 ⟨""⟩ 0 []).1,
    (C2_null_register_inert (fun _ => true) 1 ⟨""⟩ 0 []).2.1 1 ⟨""⟩⟩

/-- C10, witness: with every receiver destroyed, untyped `Unregister(nullptr)`
leaves the registry unchanged, and membership in the typed
`Unregister<T>(nullptr)` result is as characterized. -/
theorem C10_null_receiver_unregister_witness :
    Messenger.Unregister (fun _ => false) 0 [⟨1, ⟨""⟩, 5, 0⟩] =
      [⟨1, ⟨""⟩, 5, 0⟩] ∧
    ((⟨1, ⟨""⟩, 5, 0⟩ : Subscription) ∈
        Messenger.UnregisterTyped (fun _ => false) 0 1 ⟨""⟩ [⟨1, ⟨""⟩, 5, 0⟩] ↔
      (⟨1, ⟨""⟩, 5, 0⟩ : Subscription) ∈ [(⟨1, ⟨""⟩, 5, 0⟩ : Subscription)] ∧
        ¬((⟨1, ⟨""⟩, 5, 0⟩ : Subscription).type = 1 ∧
          ptrIsNull (fun _ => false) (⟨1, ⟨""⟩, 5, 0⟩ : Subscription).receiver =
            true)) :=
  ⟨(C10_null_receiver_unregister (fun _ => false) 1 [⟨1, ⟨""⟩, 5, 0⟩]).1,
    (C10_null_receiver_unregister (fun _ => false) 1 [⟨1, ⟨""⟩, 5, 0⟩]).2
      ⟨1, ⟨""⟩, 5, 0⟩⟩
